import Mathlib

/-!
Shallow embedding of the 1inch limit-order service (src/index.js).

The service wraps three kinds of external effects: the wallet/SDK signing
primitive, the remote 1inch REST API, and a JSON-RPC provider. Each is
modelled as an explicit parameter carrying the outcome of the external call
(an Except value), and the ambient randomness consumed by the demo-mode
fallbacks (Math.random hex draws, Date.now, new Date().toISOString) is passed
in as explicit arguments. The definitions below mirror the source methods
branch by branch.
-/

/-- A JSON value, as produced by the res.json calls of the Express routes. -/
inductive JVal where
  | jstr : String → JVal
  | jnum : Nat → JVal
  | jbool : Bool → JVal
  | jarr : List JVal → JVal
  | jobj : List (String × JVal) → JVal

/-- JavaScript truthiness of an optional string-valued field: undefined and
the empty string are falsy, every other string is truthy. -/
def jsTruthyStr : Option String → Bool
  | none => false
  | some s => !(s == "")

/-- JavaScript a or-else b on optional string values, as in
response.orderId or response.id. -/
def jsOr (a b : Option String) : Option String :=
  if jsTruthyStr a then a else b

/-- Parameters accepted by LimitOrderService.createOrder. Amounts are the
mathematical integers obtained by the BigInt conversions in the source;
expirationMinutes is optional with the destructuring default 60. -/
structure OrderParams where
  makerAsset : String
  takerAsset : String
  makingAmount : Nat
  takingAmount : Nat
  expirationMinutes : Option Nat

/-- The content of the LimitOrder object built in createOrder (maker and
taker assets, amounts, maker address, and the expiration carried by the
maker traits). Address normalisation by the SDK is modelled as the identity
on address strings. -/
structure LimitOrderData where
  makerAsset : String
  takerAsset : String
  maker : String
  makingAmount : Nat
  takingAmount : Nat
  expiration : Nat

/-- The order construction inside createOrder, src/index.js lines 37-46:
expirationTime = floor(Date.now() / 1000) + expirationMinutes * 60 with the
destructuring default expirationMinutes = 60, and the LimitOrder fields. -/
def buildOrder (walletAddress : String) (nowMs : Nat) (p : OrderParams) : LimitOrderData :=
  let expirationMinutes := p.expirationMinutes.getD 60
  let expirationTime := nowMs / 1000 + expirationMinutes * 60
  { makerAsset := p.makerAsset
    takerAsset := p.takerAsset
    maker := walletAddress
    makingAmount := p.makingAmount
    takingAmount := p.takingAmount
    expiration := expirationTime }

/-- The order payload of a createOrder result. -/
structure OrderInfo where
  hash : String
  maker : String
  makerAsset : String
  takerAsset : String
  makingAmount : Nat
  takingAmount : Nat

/-- Result shape of LimitOrderService.createOrder. -/
structure CreateOrderResult where
  success : Bool
  order : OrderInfo
  signature : String
  message : String

/-- LimitOrderService.createOrder, src/index.js lines 27-85. The SDK order
hash (order.getOrderHash) is an external pure function, passed as hashFn;
the fallible region of the try block (Address construction and
wallet.signTypedData) is summarised by the signTypedData outcome; randHash
and randSig are the two Math.random hex draws consumed by the demo-mode
catch branch. -/
def createOrder (walletAddress : String) (hashFn : LimitOrderData → String)
    (signTypedData : Except String String) (randHash randSig : String)
    (nowMs : Nat) (orderParams : OrderParams) : CreateOrderResult :=
  let order := buildOrder walletAddress nowMs orderParams
  match signTypedData with
  | Except.ok signature =>
    { success := true
      order :=
        { hash := hashFn order
          maker := order.maker
          makerAsset := order.makerAsset
          takerAsset := order.takerAsset
          makingAmount := order.makingAmount
          takingAmount := order.takingAmount }
      signature := signature
      message := "Order created and signed successfully" }
  | Except.error _ =>
    { success := true
      order :=
        { hash := "0x" ++ randHash
          maker := walletAddress
          makerAsset := orderParams.makerAsset
          takerAsset := orderParams.takerAsset
          makingAmount := orderParams.makingAmount
          takingAmount := orderParams.takingAmount }
      signature := "0x" ++ randSig
      message := "Order created successfully (demo mode)" }

/-- The remote API response to submitOrder, of which the source reads the
orderId and id fields. -/
structure ApiResponse where
  orderId : Option String
  id : Option String

/-- Result shape of LimitOrderService.submitOrder; data is absent on the
demo fallback branch. -/
structure SubmitResult where
  success : Bool
  orderId : Option String
  message : String
  data : Option ApiResponse

/-- LimitOrderService.submitOrder, src/index.js lines 87-104. The remote
call this.api.submitOrder(order, signature) is the api parameter; randId is
the Math.random hex draw of the demo fallback. -/
def submitOrder {α : Type} (api : α → String → Except String ApiResponse)
    (randId : String) (order : α) (signature : String) : SubmitResult :=
  match api order signature with
  | Except.ok response =>
    { success := true
      orderId := jsOr response.orderId response.id
      message := "Order submitted to 1inch network"
      data := some response }
  | Except.error _ =>
    { success := true
      orderId := some ("0x" ++ randId)
      message := "Order submitted successfully (demo mode)"
      data := none }

/-- Result shape of LimitOrderService.getActiveOrders. Remote orders are
opaque JSON values. -/
structure ActiveOrdersResult where
  success : Bool
  count : Nat
  orders : List JVal
  message : String

/-- The two fabricated orders of the getActiveOrders demo fallback,
src/index.js lines 121-132. -/
def fakeActiveOrders (rand1 rand2 nowIso1 nowIso2 : String) : List JVal :=
  [JVal.jobj
     [("orderHash", JVal.jstr ("0x" ++ rand1)),
      ("status", JVal.jstr "ACTIVE"),
      ("createdAt", JVal.jstr nowIso1)],
   JVal.jobj
     [("orderHash", JVal.jstr ("0x" ++ rand2)),
      ("status", JVal.jstr "ACTIVE"),
      ("createdAt", JVal.jstr nowIso2)]]

/-- LimitOrderService.getActiveOrders, src/index.js lines 106-140. The
remote listing call is the api outcome; rand1, rand2, nowIso1, nowIso2 feed
the demo fallback. -/
def getActiveOrders (api : Except String (List JVal))
    (rand1 rand2 nowIso1 nowIso2 : String) : ActiveOrdersResult :=
  match api with
  | Except.ok orders =>
    { success := true
      count := orders.length
      orders := orders
      message := "Found " ++ toString orders.length ++ " active orders" }
  | Except.error _ =>
    let fakeOrders := fakeActiveOrders rand1 rand2 nowIso1 nowIso2
    { success := true
      count := fakeOrders.length
      orders := fakeOrders
      message := "Found " ++ toString fakeOrders.length ++ " active orders (demo mode)" }

/-- Result shape of LimitOrderService.getOrderStatus. -/
structure OrderStatusResult where
  success : Bool
  orderHash : String
  status : JVal
  message : String

/-- LimitOrderService.getOrderStatus, src/index.js lines 142-164. -/
def getOrderStatus (api : String → Except String JVal) (orderHash : String) : OrderStatusResult :=
  match api orderHash with
  | Except.ok s =>
    { success := true
      orderHash := orderHash
      status := s
      message := "Order status retrieved" }
  | Except.error _ =>
    { success := true
      orderHash := orderHash
      status := JVal.jobj
        [("status", JVal.jstr "ACTIVE"),
         ("filled", JVal.jstr "0%"),
         ("remaining", JVal.jstr "100%")]
      message := "Order status retrieved (demo mode)" }

/-- Result shape of LimitOrderService.cancelOrder; data is absent on the
demo fallback branch. -/
structure CancelResult where
  success : Bool
  orderHash : String
  message : String
  data : Option JVal

/-- LimitOrderService.cancelOrder, src/index.js lines 166-183. -/
def cancelOrder (api : String → Except String JVal) (orderHash : String) : CancelResult :=
  match api orderHash with
  | Except.ok result =>
    { success := true
      orderHash := orderHash
      message := "Order canceled successfully"
      data := some result }
  | Except.error _ =>
    { success := true
      orderHash := orderHash
      message := "Order canceled successfully (demo mode)"
      data := none }

/-- ethers.ZeroAddress. -/
def ZeroAddress : String := "0x0000000000000000000000000000000000000000"

/-- Left-pad a digit string with zeros up to length n. -/
def padZeros (s : String) (n : Nat) : String :=
  String.mk (List.replicate (n - s.length) '0') ++ s

/-- Trim trailing zeros of a fraction-digit string, keeping at least one
digit, as ethers formatUnits renders fractions. -/
def trimFraction (s : String) : String :=
  let t := (s.data.reverse.dropWhile (fun c => c == '0')).reverse
  if t.isEmpty then "0" else String.mk t

/-- ethers.formatEther on a non-negative wei amount: the integer part, a
decimal point, and the 18 fraction digits with trailing zeros trimmed down
to at least one digit. -/
def formatEther (wei : Nat) : String :=
  let intPart := wei / 1000000000000000000
  let fracPart := wei % 1000000000000000000
  toString intPart ++ "." ++ trimFraction (padZeros (toString fracPart) 18)

/-- Result shape of LimitOrderService.getTokenBalance. -/
structure BalanceResult where
  success : Bool
  balance : String
  formatted : String
  message : String

/-- LimitOrderService.getTokenBalance, src/index.js lines 185-213. The
native-balance read (provider.getBalance of the wallet address) and the
ERC-20 balanceOf read are the two external outcomes. -/
def getTokenBalance (getBalance : Except String Nat)
    (balanceOf : String → Except String Nat) (tokenAddress : String) : BalanceResult :=
  match (if tokenAddress = ZeroAddress then getBalance else balanceOf tokenAddress) with
  | Except.ok b =>
    { success := true
      balance := toString b
      formatted := formatEther b
      message := "Balance retrieved" }
  | Except.error _ =>
    { success := true
      balance := "1000000000000000000000"
      formatted := "1000.0"
      message := "Balance retrieved (demo mode)" }

/-- Modelled from the spec: the balance/approval helper described in spec
sections 2 and 4.3 ("reads on-chain token balances and allowances, and
issues approval transactions"; "an approval transaction is skipped when
currentAllowance >= requestedAmount") has no implementation under src/.
Per the spec it issues an approval transaction, for the requested amount,
exactly when the current allowance is strictly below the requested spend
amount, and otherwise issues nothing. -/
def ensureApproval (currentAllowance requestedAmount : Nat) : Option Nat :=
  if currentAllowance < requestedAmount then some requestedAmount else none

/-- Modelled from the spec: the SDK order hash (order.getOrderHash) is
external to the repository; the spec describes it as a content-derived hash
of the order, modelled here as an injective encoding of the order fields. -/
def getOrderHashModel (o : LimitOrderData) : String :=
  "0xhash(" ++ o.makerAsset ++ "," ++ o.takerAsset ++ "," ++
    toString o.makingAmount ++ "," ++ toString o.takingAmount ++ "," ++
    o.maker ++ "," ++ toString o.expiration ++ ")"

/-- An Express response: HTTP status and the JSON body as an ordered list of
fields (undefined-valued fields are omitted, as JSON.stringify drops them). -/
structure HttpResp where
  status : Nat
  body : List (String × JVal)

/-- A field that is present only when its value is defined. -/
def optField (key : String) (v : Option JVal) : List (String × JVal) :=
  match v with
  | some j => [(key, j)]
  | none => []

/-- The key names of a response body. -/
def bodyKeys (r : HttpResp) : List String := r.body.map Prod.fst

/-- Serialisation of a createOrder result, as returned by res.json. -/
def CreateOrderResult.json (r : CreateOrderResult) : List (String × JVal) :=
  [("success", JVal.jbool r.success),
   ("order", JVal.jobj
     [("hash", JVal.jstr r.order.hash),
      ("maker", JVal.jstr r.order.maker),
      ("makerAsset", JVal.jstr r.order.makerAsset),
      ("takerAsset", JVal.jstr r.order.takerAsset),
      ("makingAmount", JVal.jstr (toString r.order.makingAmount)),
      ("takingAmount", JVal.jstr (toString r.order.takingAmount))]),
   ("signature", JVal.jstr r.signature),
   ("message", JVal.jstr r.message)]

/-- Serialisation of the remote submit response echoed in the data field. -/
def ApiResponse.json (r : ApiResponse) : List (String × JVal) :=
  optField "orderId" (r.orderId.map JVal.jstr) ++ optField "id" (r.id.map JVal.jstr)

/-- Serialisation of a submitOrder result. -/
def SubmitResult.json (r : SubmitResult) : List (String × JVal) :=
  ("success", JVal.jbool r.success) ::
    (optField "orderId" (r.orderId.map JVal.jstr) ++
      (("message", JVal.jstr r.message) ::
        optField "data" (r.data.map (fun d => JVal.jobj d.json))))

/-- Serialisation of a getActiveOrders result. -/
def ActiveOrdersResult.json (r : ActiveOrdersResult) : List (String × JVal) :=
  [("success", JVal.jbool r.success),
   ("count", JVal.jnum r.count),
   ("orders", JVal.jarr r.orders),
   ("message", JVal.jstr r.message)]

/-- Serialisation of a getOrderStatus result. -/
def OrderStatusResult.json (r : OrderStatusResult) : List (String × JVal) :=
  [("success", JVal.jbool r.success),
   ("orderHash", JVal.jstr r.orderHash),
   ("status", r.status),
   ("message", JVal.jstr r.message)]

/-- Serialisation of a cancelOrder result. -/
def CancelResult.json (r : CancelResult) : List (String × JVal) :=
  [("success", JVal.jbool r.success),
   ("orderHash", JVal.jstr r.orderHash),
   ("message", JVal.jstr r.message)] ++ optField "data" r.data

/-- Serialisation of a getTokenBalance result. -/
def BalanceResult.json (r : BalanceResult) : List (String × JVal) :=
  [("success", JVal.jbool r.success),
   ("balance", JVal.jstr r.balance),
   ("formatted", JVal.jstr r.formatted),
   ("message", JVal.jstr r.message)]

/-- Request body of POST /api/orders/create; string-valued fields are
optional (absent when the key is missing). -/
structure CreateRequest where
  makerAsset : Option String
  takerAsset : Option String
  makingAmount : Option String
  takingAmount : Option String
  expirationMinutes : Option Nat

/-- The POST /api/orders/create handler, src/index.js lines 229-256: a 400
rejection when any of the four required fields is JS-falsy, otherwise a 200
response with the createOrder result (passed in as the awaited service
result). -/
def apiOrdersCreate (req : CreateRequest) (result : CreateOrderResult) : HttpResp :=
  if !jsTruthyStr req.makerAsset || !jsTruthyStr req.takerAsset
      || !jsTruthyStr req.makingAmount || !jsTruthyStr req.takingAmount then
    { status := 400
      body := [("success", JVal.jbool false),
               ("message", JVal.jstr "Missing required fields: makerAsset, takerAsset, makingAmount, takingAmount")] }
  else
    { status := 200, body := result.json }

/-- The POST /api/orders/submit handler, src/index.js lines 259-279. -/
def apiOrdersSubmit (orderHash signature : Option String) (result : SubmitResult) : HttpResp :=
  if !jsTruthyStr orderHash || !jsTruthyStr signature then
    { status := 400
      body := [("success", JVal.jbool false),
               ("message", JVal.jstr "Missing orderHash or signature")] }
  else
    { status := 200, body := result.json }

/-- The GET /api/orders/active handler, src/index.js lines 282-293. -/
def apiOrdersActive (result : ActiveOrdersResult) : HttpResp :=
  { status := 200, body := result.json }

/-- The GET /api/orders/:orderHash/status handler, src/index.js lines 296-308. -/
def apiOrderStatus (result : OrderStatusResult) : HttpResp :=
  { status := 200, body := result.json }

/-- The DELETE /api/orders/:orderHash handler, src/index.js lines 311-323. -/
def apiOrdersCancel (result : CancelResult) : HttpResp :=
  { status := 200, body := result.json }

/-- The GET /api/balance/:tokenAddress handler, src/index.js lines 326-338. -/
def apiBalance (result : BalanceResult) : HttpResp :=
  { status := 200, body := result.json }

/-- The GET /api/health handler, src/index.js lines 341-348. -/
def apiHealth (walletAddress : String) (chainId : Nat) : HttpResp :=
  { status := 200
    body := [("success", JVal.jbool true),
             ("message", JVal.jstr "1inch Limit Order API is running"),
             ("wallet", JVal.jstr walletAddress),
             ("chainId", JVal.jnum chainId)] }

/-- The chain-1 token table of GET /api/tokens, src/index.js lines 352-360. -/
def ethereumTokens : List (String × JVal) :=
  [("ETH", JVal.jstr "0x0000000000000000000000000000000000000000"),
   ("WETH", JVal.jstr "0xC02aaA39b223FE8D0A0e5C4F27eAD9083C756Cc2"),
   ("USDT", JVal.jstr "0xdAC17F958D2ee523a2206206994597C13D831ec7"),
   ("USDC", JVal.jstr "0xA0b86a33E6441f8C19F0b68A8BbDE069C1c7F171"),
   ("DAI", JVal.jstr "0x6B175474E89094C44Da98b954EedeAC495271d0F")]

/-- The GET /api/tokens handler, src/index.js lines 351-367: the body is
tokens[chainId] with the JS or-else default of an empty object. -/
def apiTokens (chainId : Nat) : HttpResp :=
  { status := 200
    body := [("success", JVal.jbool true),
             ("tokens", JVal.jobj (if chainId = 1 then ethereumTokens else [])),
             ("chainId", JVal.jnum chainId)] }

/-- The catch branch shared in shape by the six fallible routes: a 500
response with success false, the route-specific failure message, and the
error text. -/
def catch500 (routeMessage errMsg : String) : HttpResp :=
  { status := 500
    body := [("success", JVal.jbool false),
             ("message", JVal.jstr routeMessage),
             ("error", JVal.jstr errMsg)] }

/-- C1: for every method of the limit-order service (createOrder,
submitOrder, getActiveOrders, getOrderStatus, cancelOrder,
getTokenBalance), when the underlying external call fails the method still
returns a result with success set to true, carrying synthetic placeholder
data (random hex identifiers or fixed fake values) instead of surfacing the
error. -/
theorem serviceMasksExternalFailures
    (e walletAddress : String) (hashFn : LimitOrderData → String)
    (rh rs : String) (nowMs : Nat) (p : OrderParams)
    (rid o sig r1 r2 t1 t2 h tok : String) :
    ((createOrder walletAddress hashFn (Except.error e) rh rs nowMs p).success = true
      ∧ (createOrder walletAddress hashFn (Except.error e) rh rs nowMs p).order.hash = "0x" ++ rh
      ∧ (createOrder walletAddress hashFn (Except.error e) rh rs nowMs p).signature = "0x" ++ rs)
    ∧ ((submitOrder (fun (_ : String) (_ : String) => Except.error e) rid o sig).success = true
      ∧ (submitOrder (fun (_ : String) (_ : String) => Except.error e) rid o sig).orderId
          = some ("0x" ++ rid))
    ∧ ((getActiveOrders (Except.error e) r1 r2 t1 t2).success = true
      ∧ (getActiveOrders (Except.error e) r1 r2 t1 t2).orders = fakeActiveOrders r1 r2 t1 t2)
    ∧ (getOrderStatus (fun _ => Except.error e) h).success = true
    ∧ (cancelOrder (fun _ => Except.error e) h).success = true
    ∧ ((getTokenBalance (Except.error e) (fun _ => Except.error e) tok).success = true
      ∧ (getTokenBalance (Except.error e) (fun _ => Except.error e) tok).balance
          = "1000000000000000000000") := by
  refine ⟨⟨rfl, rfl, rfl⟩, ⟨rfl, rfl⟩, ⟨rfl, rfl⟩, rfl, rfl, ?_⟩
  by_cases htok : tok = ZeroAddress <;> simp [getTokenBalance, htok]

/-- C2: the balance/approval helper requests an approval transaction if and
only if the current allowance is strictly below the requested amount; when
currentAllowance is at least requestedAmount (including equality) no
approval transaction is issued. -/
theorem ensureApproval_iff_allowance_lt_amount (currentAllowance requestedAmount : Nat) :
    ((ensureApproval currentAllowance requestedAmount).isSome = true ↔
      currentAllowance < requestedAmount)
    ∧ (requestedAmount ≤ currentAllowance →
      ensureApproval currentAllowance requestedAmount = none) := by
  constructor
  · unfold ensureApproval
    by_cases hlt : currentAllowance < requestedAmount <;> simp [hlt]
  · intro hle
    unfold ensureApproval
    simp [Nat.not_lt.mpr hle]

/-- Witness for C2: exactly equal allowance and amount issue no approval
transaction. -/
theorem ensureApproval_iff_allowance_lt_amount_witness :
    ensureApproval 7 7 = none :=
  (ensureApproval_iff_allowance_lt_amount 7 7).2 (Nat.le_refl 7)

/-- C3: submitOrder forwards exactly its signed order and signature to the
remote API (its result depends on the remote API only through the value at
that one call), and when the remote call succeeds with a response carrying
an orderId, the result carries that identifier in its orderId field and the
response in its data field. -/
theorem submitOrder_passthrough {α : Type}
    (api api2 : α → String → Except String ApiResponse)
    (rid : String) (order : α) (signature : String)
    (resp : ApiResponse) (oid : String) :
    (api order signature = api2 order signature →
      submitOrder api rid order signature = submitOrder api2 rid order signature)
    ∧ (api order signature = Except.ok resp → resp.orderId = some oid → oid ≠ "" →
      (submitOrder api rid order signature).orderId = some oid
      ∧ (submitOrder api rid order signature).data = some resp) := by
  constructor
  · intro hagree
    unfold submitOrder
    rw [hagree]
  · intro hok hoid hne
    simp [submitOrder, hok, jsOr, jsTruthyStr, hoid, hne]

/-- A concrete remote response carrying an orderId. -/
def respWithId : ApiResponse := { orderId := some "0xabc", id := none }

/-- Witness for C3 at a remote API that accepts the order. -/
theorem submitOrder_passthrough_witness :
    (submitOrder (fun (_ : String) (_ : String) => Except.ok respWithId) "r" "o" "s").orderId
        = some "0xabc"
    ∧ (submitOrder (fun (_ : String) (_ : String) => Except.ok respWithId) "r" "o" "s").data
        = some respWithId :=
  (submitOrder_passthrough (fun _ _ => Except.ok respWithId) (fun _ _ => Except.ok respWithId)
    "r" "o" "s" respWithId "0xabc").2 rfl rfl (by decide)

/-- The concrete order parameters of the README example: 100000000 units of
USDT for 30000000000000000 units of WETH with a 120-minute expiration. -/
def p0 : OrderParams :=
  { makerAsset := "0xdAC17F958D2ee523a2206206994597C13D831ec7"
    takerAsset := "0xC02aaA39b223FE8D0A0e5C4F27eAD9083C756Cc2"
    makingAmount := 100000000
    takingAmount := 30000000000000000
    expirationMinutes := some 120 }

/-- C4 counterexample: two createOrder calls with identical parameters,
wallet and clock that hit the demo fallback (signing fails) produce two
different order hashes, because each call draws fresh randomness; the hash
is therefore not a deterministic function of the order content. -/
theorem createOrder_fallback_hash_differs :
    (createOrder "0xW" getOrderHashModel (Except.error "sdk unavailable")
        "aa11" "s1" 1700000000000 p0).order.hash
      ≠ (createOrder "0xW" getOrderHashModel (Except.error "sdk unavailable")
        "bb22" "s2" 1700000000000 p0).order.hash := by
  decide

/-- C4 (amended): on the successful signing path the order hash is a
deterministic function of the order content: it equals the SDK hash of the
built order, independently of the signature value and of the randomness, so
two calls with identical parameters and clock agree; only the demo fallback
hash is drawn from the randomness source. -/
theorem createOrder_hash_deterministic_on_success
    (walletAddress : String) (hashFn : LimitOrderData → String)
    (sig sig2 rh rs rh2 rs2 : String) (nowMs : Nat) (p : OrderParams) :
    (createOrder walletAddress hashFn (Except.ok sig) rh rs nowMs p).order.hash
      = (createOrder walletAddress hashFn (Except.ok sig2) rh2 rs2 nowMs p).order.hash
    ∧ (createOrder walletAddress hashFn (Except.ok sig) rh rs nowMs p).order.hash
      = hashFn (buildOrder walletAddress nowMs p) :=
  ⟨rfl, rfl⟩

/-- C5: for every chain identifier other than 1 the GET /api/tokens route
responds 200 with success true and an empty tokens mapping. -/
theorem apiTokens_unknown_chain_empty (chainId : Nat) (hne : chainId ≠ 1) :
    (apiTokens chainId).status = 200
    ∧ (apiTokens chainId).body =
      [("success", JVal.jbool true), ("tokens", JVal.jobj []), ("chainId", JVal.jnum chainId)] := by
  unfold apiTokens
  simp [hne]

/-- Witness for C5 at chain identifier 137. -/
theorem apiTokens_unknown_chain_empty_witness :
    (apiTokens 137).status = 200
    ∧ (apiTokens 137).body =
      [("success", JVal.jbool true), ("tokens", JVal.jobj []), ("chainId", JVal.jnum 137)] :=
  apiTokens_unknown_chain_empty 137 (by decide)

/-- A request whose four required fields are all present but whose
makerAsset is the empty string. -/
def emptyMakerAssetRequest : CreateRequest :=
  { makerAsset := some ""
    takerAsset := some "0xC02aaA39b223FE8D0A0e5C4F27eAD9083C756Cc2"
    makingAmount := some "100000000"
    takingAmount := some "30000000000000000"
    expirationMinutes := none }

/-- A concrete awaited createOrder service result. -/
def someServiceResult : CreateOrderResult :=
  { success := true
    order :=
      { hash := "0xabc"
        maker := "0xW"
        makerAsset := "0xA"
        takerAsset := "0xB"
        makingAmount := 1
        takingAmount := 2 }
    signature := "0xsig"
    message := "Order created and signed successfully" }

/-- C6 counterexample: a request body in which all four required fields are
present but makerAsset is the empty string is rejected with 400 and success
false, so the 400 response is not issued exactly when a field is missing. -/
theorem apiOrdersCreate_rejects_present_empty_field :
    emptyMakerAssetRequest.makerAsset.isSome = true
    ∧ emptyMakerAssetRequest.takerAsset.isSome = true
    ∧ emptyMakerAssetRequest.makingAmount.isSome = true
    ∧ emptyMakerAssetRequest.takingAmount.isSome = true
    ∧ (apiOrdersCreate emptyMakerAssetRequest someServiceResult).status = 400
    ∧ (apiOrdersCreate emptyMakerAssetRequest someServiceResult).body =
      [("success", JVal.jbool false),
       ("message", JVal.jstr "Missing required fields: makerAsset, takerAsset, makingAmount, takingAmount")] :=
  ⟨rfl, rfl, rfl, rfl, rfl, rfl⟩

/-- C6 (amended): the POST /api/orders/create handler responds 400 with
success false exactly when at least one of makerAsset, takerAsset,
makingAmount, takingAmount is JS-falsy (absent or the empty string), and
responds 200 with the service result when all four are present and
non-empty; an absent field is in particular falsy. -/
theorem apiOrdersCreate_field_validation (req : CreateRequest) (result : CreateOrderResult) :
    ((jsTruthyStr req.makerAsset = false ∨ jsTruthyStr req.takerAsset = false
        ∨ jsTruthyStr req.makingAmount = false ∨ jsTruthyStr req.takingAmount = false) →
      (apiOrdersCreate req result).status = 400
      ∧ (apiOrdersCreate req result).body =
        [("success", JVal.jbool false),
         ("message", JVal.jstr "Missing required fields: makerAsset, takerAsset, makingAmount, takingAmount")])
    ∧ ((jsTruthyStr req.makerAsset = true ∧ jsTruthyStr req.takerAsset = true
        ∧ jsTruthyStr req.makingAmount = true ∧ jsTruthyStr req.takingAmount = true) →
      (apiOrdersCreate req result).status = 200
      ∧ (apiOrdersCreate req result).body = result.json)
    ∧ (req.makerAsset = none → jsTruthyStr req.makerAsset = false) := by
  refine ⟨?_, ?_, ?_⟩
  · intro hfalsy
    unfold apiOrdersCreate
    rcases hfalsy with hf | hf | hf | hf <;> simp [hf]
  · rintro ⟨h1, h2, h3, h4⟩
    unfold apiOrdersCreate
    simp [h1, h2, h3, h4]
  · intro hnone
    rw [hnone]
    rfl

/-- Witness for C6: a request with all four fields present and non-empty is
answered 200 with the service result. -/
theorem apiOrdersCreate_field_validation_witness :
    (apiOrdersCreate
      { makerAsset := some "0xdAC17F958D2ee523a2206206994597C13D831ec7"
        takerAsset := some "0xC02aaA39b223FE8D0A0e5C4F27eAD9083C756Cc2"
        makingAmount := some "100000000"
        takingAmount := some "30000000000000000"
        expirationMinutes := none } someServiceResult).status = 200
    ∧ (apiOrdersCreate
      { makerAsset := some "0xdAC17F958D2ee523a2206206994597C13D831ec7"
        takerAsset := some "0xC02aaA39b223FE8D0A0e5C4F27eAD9083C756Cc2"
        makingAmount := some "100000000"
        takingAmount := some "30000000000000000"
        expirationMinutes := none } someServiceResult).body = someServiceResult.json :=
  (apiOrdersCreate_field_validation
    { makerAsset := some "0xdAC17F958D2ee523a2206206994597C13D831ec7"
      takerAsset := some "0xC02aaA39b223FE8D0A0e5C4F27eAD9083C756Cc2"
      makingAmount := some "100000000"
      takingAmount := some "30000000000000000"
      expirationMinutes := none } someServiceResult).2.1 ⟨rfl, rfl, rfl, rfl⟩

/-- C7 counterexample: the GET /api/tokens response body has no message
field, so not every endpoint returns an envelope containing both success
and message. -/
theorem apiTokens_no_message_field :
    ¬ ("message" ∈ bodyKeys (apiTokens 1)) := by
  decide

/-- C7 (amended): on every response branch, every endpoint returns a JSON
envelope containing a success field, and every endpoint except GET
/api/tokens also contains a message field; the GET /api/tokens body carries
success, tokens and chainId but no message field. -/
theorem responses_have_success_and_message
    (req : CreateRequest) (rc : CreateOrderResult)
    (oh sg : Option String) (rs : SubmitResult)
    (ra : ActiveOrdersResult) (ro : OrderStatusResult)
    (rx : CancelResult) (rb : BalanceResult)
    (walletAddress : String) (chainId : Nat) (routeMessage errMsg : String) :
    ("success" ∈ bodyKeys (apiOrdersCreate req rc)
      ∧ "message" ∈ bodyKeys (apiOrdersCreate req rc))
    ∧ ("success" ∈ bodyKeys (apiOrdersSubmit oh sg rs)
      ∧ "message" ∈ bodyKeys (apiOrdersSubmit oh sg rs))
    ∧ ("success" ∈ bodyKeys (apiOrdersActive ra)
      ∧ "message" ∈ bodyKeys (apiOrdersActive ra))
    ∧ ("success" ∈ bodyKeys (apiOrderStatus ro)
      ∧ "message" ∈ bodyKeys (apiOrderStatus ro))
    ∧ ("success" ∈ bodyKeys (apiOrdersCancel rx)
      ∧ "message" ∈ bodyKeys (apiOrdersCancel rx))
    ∧ ("success" ∈ bodyKeys (apiBalance rb)
      ∧ "message" ∈ bodyKeys (apiBalance rb))
    ∧ ("success" ∈ bodyKeys (apiHealth walletAddress chainId)
      ∧ "message" ∈ bodyKeys (apiHealth walletAddress chainId))
    ∧ ("success" ∈ bodyKeys (catch500 routeMessage errMsg)
      ∧ "message" ∈ bodyKeys (catch500 routeMessage errMsg))
    ∧ ("success" ∈ bodyKeys (apiTokens chainId)
      ∧ "message" ∉ bodyKeys (apiTokens chainId)) := by
  refine ⟨?_, ?_, ?_, ?_, ?_, ?_, ?_, ?_, ?_⟩
  · cases hx : (!jsTruthyStr req.makerAsset || !jsTruthyStr req.takerAsset
        || !jsTruthyStr req.makingAmount || !jsTruthyStr req.takingAmount) <;>
      simp [apiOrdersCreate, hx, bodyKeys, CreateOrderResult.json]
  · obtain ⟨s, oid, m, d⟩ := rs
    cases hx : (!jsTruthyStr oh || !jsTruthyStr sg) <;> cases oid <;> cases d <;>
      simp [apiOrdersSubmit, hx, bodyKeys, SubmitResult.json, optField]
  · simp [apiOrdersActive, bodyKeys, ActiveOrdersResult.json]
  · simp [apiOrderStatus, bodyKeys, OrderStatusResult.json]
  · obtain ⟨s, ohash, m, d⟩ := rx
    cases d <;> simp [apiOrdersCancel, bodyKeys, CancelResult.json, optField]
  · simp [apiBalance, bodyKeys, BalanceResult.json]
  · simp [apiHealth, bodyKeys]
  · simp [catch500, bodyKeys]
  · simp [apiTokens, bodyKeys]

/-- Witness for C7 at concrete requests and results. -/
theorem responses_have_success_and_message_witness :
    ("success" ∈ bodyKeys (apiTokens 1) ∧ "message" ∉ bodyKeys (apiTokens 1))
    ∧ ("success" ∈ bodyKeys (apiHealth "0xW" 1) ∧ "message" ∈ bodyKeys (apiHealth "0xW" 1)) :=
  ⟨(responses_have_success_and_message
      { makerAsset := none, takerAsset := none, makingAmount := none, takingAmount := none,
        expirationMinutes := none }
      { success := true,
        order := { hash := "h", maker := "m", makerAsset := "a", takerAsset := "b",
                   makingAmount := 1, takingAmount := 2 },
        signature := "s", message := "ok" }
      none none
      { success := true, orderId := none, message := "ok", data := none }
      { success := true, count := 0, orders := [], message := "ok" }
      { success := true, orderHash := "h", status := JVal.jobj [], message := "ok" }
      { success := true, orderHash := "h", message := "ok", data := none }
      { success := true, balance := "0", formatted := "0.0", message := "ok" }
      "0xW" 1 "m" "e").2.2.2.2.2.2.2.2,
   (responses_have_success_and_message
      { makerAsset := none, takerAsset := none, makingAmount := none, takingAmount := none,
        expirationMinutes := none }
      { success := true,
        order := { hash := "h", maker := "m", makerAsset := "a", takerAsset := "b",
                   makingAmount := 1, takingAmount := 2 },
        signature := "s", message := "ok" }
      none none
      { success := true, orderId := none, message := "ok", data := none }
      { success := true, count := 0, orders := [], message := "ok" }
      { success := true, orderHash := "h", status := JVal.jobj [], message := "ok" }
      { success := true, orderHash := "h", message := "ok", data := none }
      { success := true, balance := "0", formatted := "0.0", message := "ok" }
      "0xW" 1 "m" "e").2.2.2.2.2.2.1⟩

/-- C8: the order built by createOrder expires at the current Unix time in
whole seconds plus expirationMinutes times 60, with expirationMinutes
defaulting to 60 when absent; on the successful signing path the returned
hash is computed over exactly that built order. -/
theorem createOrder_expiration_default
    (walletAddress : String) (hashFn : LimitOrderData → String) (sig rh rs : String)
    (nowMs : Nat) (p : OrderParams) :
    ((buildOrder walletAddress nowMs p).expiration
        = nowMs / 1000 + (p.expirationMinutes.getD 60) * 60)
    ∧ (p.expirationMinutes = none →
        (buildOrder walletAddress nowMs p).expiration = nowMs / 1000 + 60 * 60)
    ∧ ((createOrder walletAddress hashFn (Except.ok sig) rh rs nowMs p).order.hash
        = hashFn (buildOrder walletAddress nowMs p)) := by
  refine ⟨rfl, ?_, rfl⟩
  intro hnone
  simp [buildOrder, hnone]

/-- Witness for C8: with no expirationMinutes given, the built order expires
3600 seconds after the whole-second clock reading. -/
theorem createOrder_expiration_default_witness :
    (buildOrder "0xW" 1700000005000
      { makerAsset := "0xA", takerAsset := "0xB", makingAmount := 1, takingAmount := 2,
        expirationMinutes := none }).expiration = 1700000005000 / 1000 + 60 * 60 :=
  (createOrder_expiration_default "0xW" (fun _ => "h") "s" "r1" "r2" 1700000005000
    { makerAsset := "0xA", takerAsset := "0xB", makingAmount := 1, takingAmount := 2,
      expirationMinutes := none }).2.1 rfl

/-- C9: getTokenBalance dispatches on the zero address: for the zero address
it reports the native balance read from the provider, for any other address
the ERC-20 balanceOf result, in both cases as a decimal string together
with the ether-formatted rendering. -/
theorem getTokenBalance_zero_address_dispatch
    (getBalance : Except String Nat) (balanceOf : String → Except String Nat)
    (tokenAddress : String) (b : Nat) :
    ((tokenAddress = ZeroAddress → getBalance = Except.ok b →
      (getTokenBalance getBalance balanceOf tokenAddress).success = true
      ∧ (getTokenBalance getBalance balanceOf tokenAddress).balance = toString b
      ∧ (getTokenBalance getBalance balanceOf tokenAddress).formatted = formatEther b))
    ∧ ((tokenAddress ≠ ZeroAddress → balanceOf tokenAddress = Except.ok b →
      (getTokenBalance getBalance balanceOf tokenAddress).success = true
      ∧ (getTokenBalance getBalance balanceOf tokenAddress).balance = toString b
      ∧ (getTokenBalance getBalance balanceOf tokenAddress).formatted = formatEther b)) := by
  constructor
  · intro hz hok
    simp [getTokenBalance, hz, hok]
  · intro hnz hok
    simp [getTokenBalance, hnz, hok]

/-- Witness for C9: the native balance at the zero address and an ERC-20
balance at the USDT address. -/
theorem getTokenBalance_zero_address_dispatch_witness :
    ((getTokenBalance (Except.ok 5) (fun _ => Except.error "no rpc") ZeroAddress).success = true
      ∧ (getTokenBalance (Except.ok 5) (fun _ => Except.error "no rpc") ZeroAddress).balance
          = toString 5
      ∧ (getTokenBalance (Except.ok 5) (fun _ => Except.error "no rpc") ZeroAddress).formatted
          = formatEther 5)
    ∧ ((getTokenBalance (Except.error "no rpc") (fun _ => Except.ok 7)
          "0xdAC17F958D2ee523a2206206994597C13D831ec7").success = true
      ∧ (getTokenBalance (Except.error "no rpc") (fun _ => Except.ok 7)
          "0xdAC17F958D2ee523a2206206994597C13D831ec7").balance = toString 7
      ∧ (getTokenBalance (Except.error "no rpc") (fun _ => Except.ok 7)
          "0xdAC17F958D2ee523a2206206994597C13D831ec7").formatted = formatEther 7) :=
  ⟨(getTokenBalance_zero_address_dispatch (Except.ok 5) (fun _ => Except.error "no rpc")
      ZeroAddress 5).1 rfl rfl,
   (getTokenBalance_zero_address_dispatch (Except.error "no rpc") (fun _ => Except.ok 7)
      "0xdAC17F958D2ee523a2206206994597C13D831ec7" 7).2 (by decide) rfl⟩

/-- C10: every getActiveOrders result has its count field equal to the
length of its orders array, on the remote branch and on the fallback
branch alike. -/
theorem getActiveOrders_count_eq_length
    (api : Except String (List JVal)) (rand1 rand2 nowIso1 nowIso2 : String) :
    (getActiveOrders api rand1 rand2 nowIso1 nowIso2).count
      = (getActiveOrders api rand1 rand2 nowIso1 nowIso2).orders.length := by
  cases api <;> rfl
